import Mathlib

/-! Sprite animator (`sketch.js`)

A shallow embedding of the character animator of `sketch.js`: the `STATE`
constants, the `animationData` catalog, the `Player` class (`constructor`,
`setState`, `setVelocity`, `update`, `display`) and the host functions
`handleInput` and `draw`.

Conventions of the embedding.

* JavaScript numbers that hold coordinates (`x`, `y`, `velocity`, `scale`, the
  p5 global `width`) are exact rationals: `windowWidth / 4` need not be an
  integer.  Rounding, `NaN` and infinities of IEEE doubles are outside the
  model.
* `currentFrame` and `frameCounter` are natural numbers: the source only ever
  writes `0`, `frameCounter++` and `(currentFrame + 1) % frameCount` to them.
* The p5 globals read by the code are explicit arguments: `width` for `update`
  and the key table `keyIsDown` for `handleInput`.
* Methods that mutate `this` return the new `Player`; `display` also returns the
  p5 drawing calls it issues.
-/

namespace Sketch

/-- The `STATE` constants (`sketch.js` lines 5-11). -/
inductive STATE where
  | IDLE
  | WALK
  | RUN
  | ATTACK
  deriving DecidableEq, Repr

/-- One entry of `animationData` (the `path` string plays no role in the logic). -/
structure AnimData where
  frameWidth : Nat
  frameHeight : Nat
  frameCount : Nat
  frameDelay : Nat
  deriving DecidableEq, Repr

/-- Entry `animationData.IDLE` (lines 20-26); `Math.floor(889 / 6)` is `889 / 6` on `Nat`. -/
def animationData_IDLE : AnimData :=
  { frameWidth := 889 / 6, frameHeight := 176, frameCount := 6, frameDelay := 8 }

/-- Entry `animationData.WALK` (lines 28-34); `Math.floor(1251 / 8)` is `1251 / 8` on `Nat`. -/
def animationData_WALK : AnimData :=
  { frameWidth := 1251 / 8, frameHeight := 184, frameCount := 8, frameDelay := 6 }

/-- The `switch (this.currentState)` of `update` and `display` (lines 152-163,
179-190): the clip chosen for a state, `none` for the `default: return` branch. -/
def currentAnimData : STATE → Option AnimData
  | STATE.IDLE => some animationData_IDLE
  | STATE.WALK => some animationData_WALK
  | _ => none

/-- The fields of a `Player` object (lines 106-115). -/
structure Player where
  x : ℚ
  y : ℚ
  velocity : ℚ
  scale : ℚ
  currentState : STATE
  currentFrame : Nat
  frameCounter : Nat
  facing : Int
  deriving DecidableEq

/-- The `constructor(x, y)` of `Player` (lines 106-115). -/
def Player.new (x y : ℚ) : Player :=
  { x := x, y := y, velocity := 0, scale := 1, currentState := STATE.IDLE,
    currentFrame := 0, frameCounter := 0, facing := 1 }

/-- The p5 library function `constrain(n, low, high)`, which p5 defines as
`Math.max(Math.min(n, high), low)`. -/
def constrain (n low high : ℚ) : ℚ :=
  max (min n high) low

/-- Method `setState(newState)` (lines 120-127). -/
def Player.setState (p : Player) (newState : STATE) : Player :=
  if p.currentState ≠ newState then
    { p with currentState := newState, currentFrame := 0, frameCounter := 0 }
  else p

/-- Method `setVelocity(vel)` (lines 132-134). -/
def Player.setVelocity (p : Player) (vel : ℚ) : Player :=
  { p with velocity := vel }

/-- Method `update()` (lines 139-170); `width` is the p5 canvas width. -/
def Player.update (width : ℚ) (p : Player) : Player :=
  let p1 : Player := { p with x := p.x + p.velocity }
  let p2 : Player :=
    { p1 with x := constrain p1.x 0 (width - (animationData_IDLE.frameWidth : ℚ) * p1.scale) }
  let p3 : Player := { p2 with frameCounter := p2.frameCounter + 1 }
  match currentAnimData p3.currentState with
  | none => p3
  | some d =>
    if p3.frameCounter ≥ d.frameDelay then
      { p3 with currentFrame := (p3.currentFrame + 1) % d.frameCount, frameCounter := 0 }
    else p3

/-- Function `handleInput()` (lines 77-91) acting on the global `player`;
`keyIsDown` is the p5 key table. -/
def handleInput (keyIsDown : Nat → Bool) (player : Player) : Player :=
  let player := player.setState STATE.IDLE
  let player := player.setVelocity 0
  if keyIsDown 68 then
    let player := player.setState STATE.WALK
    player.setVelocity 3
  else player

/-- The body of `draw()` that touches the player (lines 67-70): `handleInput()`
then `player.update()`. -/
def drawTick (keyIsDown : Nat → Bool) (width : ℚ) (player : Player) : Player :=
  (handleInput keyIsDown player).update width

/-- Result of `n` consecutive calls of `update()` with the canvas width held at `width`. -/
def updateN (width : ℚ) : Nat → Player → Player
  | 0, p => p
  | n + 1, p => (updateN width n p).update width

/-- The states a `Player` can be in after `new Player(x, y)` followed by any
sequence of calls of `setState`, `setVelocity`, `update` (under any canvas
width) and `handleInput` (under any key table). -/
inductive Reachable : Player → Prop where
  | new (x y : ℚ) : Reachable (Player.new x y)
  | setState {p : Player} (s : STATE) : Reachable p → Reachable (p.setState s)
  | setVelocity {p : Player} (v : ℚ) : Reachable p → Reachable (p.setVelocity v)
  | update {p : Player} (width : ℚ) : Reachable p → Reachable (p.update width)
  | handleInput {p : Player} (keyIsDown : Nat → Bool) :
      Reachable p → Reachable (Sketch.handleInput keyIsDown p)

/-- A key table in which only the D key (key code 68) is down. -/
def keyDHeld : Nat → Bool := fun keyCode => keyCode == 68

/-- A key table in which no key is down. -/
def noKeyHeld : Nat → Bool := fun _ => false

/-- A walking player in the middle of the walk cycle: frame 3, two ticks into
the frame (what `setState(WALK)`, `setVelocity(3)` and twenty `update()` calls
on a canvas of width 800 leave of `new Player(100, 50)`). -/
def walkingMidCycle : Player :=
  { x := 160, y := 50, velocity := 3, scale := 1, currentState := STATE.WALK,
    currentFrame := 3, frameCounter := 2, facing := 1 }

/-- A player in the clipless state `ATTACK`, moving right at 3 pixels per tick. -/
def attackingPlayer : Player :=
  { x := 160, y := 50, velocity := 3, scale := 1, currentState := STATE.ATTACK,
    currentFrame := 0, frameCounter := 0, facing := 1 }

/-- A walking player one pixel from the right edge of a canvas of width 800. -/
def nearRightEdge : Player :=
  { x := 799, y := 50, velocity := 3, scale := 1, currentState := STATE.WALK,
    currentFrame := 0, frameCounter := 0, facing := 1 }

/-- The player of the walk scenario once `setState(WALK)` and `setVelocity(3)`
have been called on `new Player(100, 50)`. -/
def walkScenario : Player :=
  ((Player.new 100 50).setState STATE.WALK).setVelocity 3

/-- The frame index is a valid index of the clip of the current state, if there is one. -/
def FrameInClip (p : Player) : Prop :=
  ∀ d : AnimData, currentAnimData p.currentState = some d → p.currentFrame < d.frameCount

/-- The player after the first `draw()` tick of a fresh `new Player(100, 50)` on
a canvas of width 800 with the D key held. -/
def afterOneHeldTick : Player :=
  drawTick keyDHeld 800 (Player.new 100 50)

/-- The two sprite-sheet globals `idleSpriteSheet` and `walkSpriteSheet` (lines 14-15). -/
inductive SpriteSheet where
  | idleSpriteSheet
  | walkSpriteSheet
  deriving DecidableEq, Repr

/-- Pixel width of each sprite sheet as the catalog records it: 889 for the IDLE
sheet (comment of line 19, literal of line 22) and 1251 for the WALK sheet
(comment of line 27, literal of line 30). -/
def sheetWidth : SpriteSheet → Nat
  | SpriteSheet.idleSpriteSheet => 889
  | SpriteSheet.walkSpriteSheet => 1251

/-- The p5 drawing calls that `display` issues, in the order of the source:
`push()`, `translate(x, y)`, `scale(sx, sy)`,
`image(img, dx, dy, dWidth, dHeight, sx, sy, sWidth, sHeight)` and `pop()`. -/
inductive CanvasOp where
  | push
  | translate (x y : ℚ)
  | scale (sx sy : ℚ)
  | image (img : SpriteSheet) (dx dy dWidth dHeight sx sy sWidth sHeight : Nat)
  | pop
  deriving DecidableEq

/-- The `switch (this.currentState)` of `display` (lines 179-190): the clip and
the sheet chosen for a state, `none` for the `default: return` branch. -/
def displaySwitch : STATE → Option (AnimData × SpriteSheet)
  | STATE.IDLE => some (animationData_IDLE, SpriteSheet.idleSpriteSheet)
  | STATE.WALK => some (animationData_WALK, SpriteSheet.walkSpriteSheet)
  | _ => none

/-- Method `display()` (lines 175-225): the player after the call together with
the drawing calls issued. The locals `destW` and `destH` (lines 199-200) are
computed but never used by the source and are left out. -/
def Player.display (p : Player) : Player × List CanvasOp :=
  match displaySwitch p.currentState with
  | none => (p, [])
  | some (d, spriteSheet) =>
    let srcX := p.currentFrame * d.frameWidth
    let srcY := 0
    let srcW := d.frameWidth
    let srcH := d.frameHeight
    (p, [CanvasOp.push,
         CanvasOp.translate p.x p.y,
         CanvasOp.scale ((p.facing : ℚ) * p.scale) p.scale,
         CanvasOp.image spriteSheet 0 0 srcW srcH srcX srcY srcW srcH,
         CanvasOp.pop])

/-- Horizontal canvas coordinates of the left and right edge of the destination
rectangle of every `image` call in a sequence of drawing calls, under the p5
transform rules: with origin `tx` and horizontal unit `ux`, `translate(x, y)`
moves the origin to `tx + ux * x`, `scale(sx, sy)` multiplies the unit by `sx`,
`push()` saves and `pop()` restores the pair. -/
def horizontalExtents : ℚ → ℚ → List (ℚ × ℚ) → List CanvasOp → List (ℚ × ℚ)
  | _, _, _, [] => []
  | tx, ux, stack, CanvasOp.push :: ops => horizontalExtents tx ux ((tx, ux) :: stack) ops
  | tx, ux, [], CanvasOp.pop :: ops => horizontalExtents tx ux [] ops
  | _, _, (tx, ux) :: stack, CanvasOp.pop :: ops => horizontalExtents tx ux stack ops
  | tx, ux, stack, CanvasOp.translate x _ :: ops =>
    horizontalExtents (tx + ux * x) ux stack ops
  | tx, ux, stack, CanvasOp.scale sx _ :: ops => horizontalExtents tx (ux * sx) stack ops
  | tx, ux, stack, CanvasOp.image _ dx _ dWidth _ _ _ _ _ :: ops =>
    (tx + ux * (dx : ℚ), tx + ux * ((dx : ℚ) + (dWidth : ℚ))) ::
      horizontalExtents tx ux stack ops

/-- The `image` calls of a sequence of drawing calls. -/
def imageOps : List CanvasOp → List CanvasOp
  | [] => []
  | CanvasOp.image img dx dy dw dh sx sy sw sh :: ops =>
    CanvasOp.image img dx dy dw dh sx sy sw sh :: imageOps ops
  | _ :: ops => imageOps ops

/-- Consecutive `draw()` ticks, one per element of `inputs`; each element gives
the key table and the canvas width of its tick. -/
def drawTicks : List ((Nat → Bool) × ℚ) → Player → Player
  | [], p => p
  | input :: inputs, p => drawTicks inputs (drawTick input.1 input.2 p)

/-- The frame counter is below the delay of the clip of the current state, if there is one. -/
def CounterBelowDelay (p : Player) : Prop :=
  ∀ d : AnimData, currentAnimData p.currentState = some d → p.frameCounter < d.frameDelay

/-- A running player (clipless state `RUN`) whose counter has grown to 40. -/
def runningPlayer : Player :=
  { x := 160, y := 50, velocity := 3, scale := 1, currentState := STATE.RUN,
    currentFrame := 0, frameCounter := 40, facing := 1 }

/-- A walking player on the last frame of the walk cycle (what `setState(WALK)`,
`setVelocity(3)` and 42 `update()` calls on a canvas of width 800 leave of
`new Player(100, 50)`). -/
def walkingLastFrame : Player :=
  { x := 226, y := 50, velocity := 3, scale := 1, currentState := STATE.WALK,
    currentFrame := 7, frameCounter := 0, facing := 1 }

/-- The inputs of `n` consecutive `draw()` ticks with the D key held on a canvas
of width 800. -/
def heldRun (n : Nat) : List ((Nat → Bool) × ℚ) :=
  List.replicate n (keyDHeld, 800)

/-- The player after 151 `draw()` ticks with the D key held on a canvas of width
800, starting from `new Player(200, 560)` (`windowWidth / 4` and
`windowHeight * 0.7` for an 800 by 800 window). -/
def walkedToRightEdge : Player :=
  drawTicks (heldRun 151) (Player.new 200 560)

/-! ## Field-wise behaviour of the methods -/

theorem animationData_IDLE_frameWidth : animationData_IDLE.frameWidth = 148 := rfl

theorem setState_of_eq (p : Player) (s : STATE) (h : p.currentState = s) :
    p.setState s = p := by
  simp [Player.setState, h]

theorem setState_of_ne (p : Player) (s : STATE) (h : p.currentState ≠ s) :
    p.setState s =
      { p with currentState := s, currentFrame := 0, frameCounter := 0 } := by
  simp [Player.setState, h]

theorem setState_currentState (p : Player) (s : STATE) :
    (p.setState s).currentState = s := by
  by_cases h : p.currentState = s
  · rw [setState_of_eq p s h]; exact h
  · rw [setState_of_ne p s h]

theorem setState_x (p : Player) (s : STATE) : (p.setState s).x = p.x := by
  unfold Player.setState; split <;> rfl

theorem setState_y (p : Player) (s : STATE) : (p.setState s).y = p.y := by
  unfold Player.setState; split <;> rfl

theorem setState_velocity (p : Player) (s : STATE) :
    (p.setState s).velocity = p.velocity := by
  unfold Player.setState; split <;> rfl

theorem setState_scale (p : Player) (s : STATE) : (p.setState s).scale = p.scale := by
  unfold Player.setState; split <;> rfl

theorem setState_facing (p : Player) (s : STATE) : (p.setState s).facing = p.facing := by
  unfold Player.setState; split <;> rfl

theorem update_x (w : ℚ) (p : Player) :
    (p.update w).x = constrain (p.x + p.velocity) 0 (w - 148 * p.scale) := by
  unfold Player.update
  simp only [animationData_IDLE_frameWidth]
  split
  · norm_num
  · split <;> norm_num

theorem update_y (w : ℚ) (p : Player) : (p.update w).y = p.y := by
  unfold Player.update
  dsimp only
  split
  · rfl
  · split <;> rfl

theorem update_velocity (w : ℚ) (p : Player) : (p.update w).velocity = p.velocity := by
  unfold Player.update
  dsimp only
  split
  · rfl
  · split <;> rfl

theorem update_scale (w : ℚ) (p : Player) : (p.update w).scale = p.scale := by
  unfold Player.update
  dsimp only
  split
  · rfl
  · split <;> rfl

theorem update_facing (w : ℚ) (p : Player) : (p.update w).facing = p.facing := by
  unfold Player.update
  dsimp only
  split
  · rfl
  · split <;> rfl

theorem update_currentState (w : ℚ) (p : Player) :
    (p.update w).currentState = p.currentState := by
  unfold Player.update
  dsimp only
  split
  · rfl
  · split <;> rfl

/-- Frame fields after `update()` in a state without a clip. -/
theorem update_frames_of_none (w : ℚ) (p : Player)
    (h : currentAnimData p.currentState = none) :
    (p.update w).currentFrame = p.currentFrame ∧
      (p.update w).frameCounter = p.frameCounter + 1 := by
  unfold Player.update
  simp [h]

/-- Frame fields after `update()` in a state with clip `d`, before the delay is reached. -/
theorem update_frames_of_lt (w : ℚ) (p : Player) (d : AnimData)
    (h : currentAnimData p.currentState = some d) (hlt : p.frameCounter + 1 < d.frameDelay) :
    (p.update w).currentFrame = p.currentFrame ∧
      (p.update w).frameCounter = p.frameCounter + 1 := by
  unfold Player.update
  simp [h, Nat.not_le.mpr hlt]

/-- Frame fields after `update()` in a state with clip `d`, when the delay is reached. -/
theorem update_frames_of_ge (w : ℚ) (p : Player) (d : AnimData)
    (h : currentAnimData p.currentState = some d) (hge : d.frameDelay ≤ p.frameCounter + 1) :
    (p.update w).currentFrame = (p.currentFrame + 1) % d.frameCount ∧
      (p.update w).frameCounter = 0 := by
  unfold Player.update
  simp [h, hge]

theorem updateN_succ (w : ℚ) (n : Nat) (p : Player) :
    updateN w (n + 1) p = (updateN w n p).update w := rfl

theorem updateN_velocity (w : ℚ) (n : Nat) (p : Player) :
    (updateN w n p).velocity = p.velocity := by
  induction n with
  | zero => rfl
  | succ n ih => rw [updateN_succ, update_velocity, ih]

theorem updateN_scale (w : ℚ) (n : Nat) (p : Player) :
    (updateN w n p).scale = p.scale := by
  induction n with
  | zero => rfl
  | succ n ih => rw [updateN_succ, update_scale, ih]

theorem updateN_currentState (w : ℚ) (n : Nat) (p : Player) :
    (updateN w n p).currentState = p.currentState := by
  induction n with
  | zero => rfl
  | succ n ih => rw [updateN_succ, update_currentState, ih]

theorem updateN_x_succ (w : ℚ) (n : Nat) (p : Player) :
    (updateN w (n + 1) p).x =
      constrain ((updateN w n p).x + p.velocity) 0 (w - 148 * p.scale) := by
  rw [updateN_succ, update_x, updateN_velocity, updateN_scale]

/-! ## The clamp `constrain(n, 0, high)` -/

theorem constrain_zero_nonneg (n high : ℚ) : 0 ≤ constrain n 0 high :=
  le_max_right _ _

theorem constrain_zero_le (n high : ℚ) (h : 0 ≤ high) : constrain n 0 high ≤ high :=
  max_le (min_le_right _ _) h

theorem constrain_zero_le_max (n high : ℚ) : constrain n 0 high ≤ max high 0 :=
  max_le_max (min_le_right _ _) le_rfl

theorem constrain_zero_of_neg (n high : ℚ) (h : high < 0) : constrain n 0 high = 0 :=
  max_eq_right (le_trans (min_le_right _ _) h.le)

theorem constrain_zero_of_mem (n high : ℚ) (h0 : 0 ≤ n) (h1 : n ≤ high) :
    constrain n 0 high = n := by
  unfold constrain
  rw [min_eq_left h1, max_eq_left h0]

theorem constrain_zero_of_ge (n high : ℚ) (h0 : 0 ≤ high) (h1 : high ≤ n) :
    constrain n 0 high = high := by
  unfold constrain
  rw [min_eq_right h1, max_eq_left h0]

theorem updateN_y (w : ℚ) (n : Nat) (p : Player) : (updateN w n p).y = p.y := by
  induction n with
  | zero => rfl
  | succ n ih => rw [updateN_succ, update_y, ih]

theorem updateN_facing (w : ℚ) (n : Nat) (p : Player) :
    (updateN w n p).facing = p.facing := by
  induction n with
  | zero => rfl
  | succ n ih => rw [updateN_succ, update_facing, ih]

/-- Away from the clamp bounds, `n` ticks move `x` by `n * velocity`. -/
theorem updateN_x_free (w : ℚ) (p : Player) (n : Nat) (hv : 0 ≤ p.velocity)
    (hx : 0 ≤ p.x) (hb : p.x + (n : ℚ) * p.velocity ≤ w - 148 * p.scale) :
    (updateN w n p).x = p.x + (n : ℚ) * p.velocity := by
  induction n with
  | zero => rw [Nat.cast_zero, zero_mul, add_zero]; rfl
  | succ n ih =>
    have hn0 : (0 : ℚ) ≤ n := Nat.cast_nonneg n
    have hnv : 0 ≤ (n : ℚ) * p.velocity := mul_nonneg hn0 hv
    push_cast at hb
    have hb2 : p.x + (n : ℚ) * p.velocity ≤ w - 148 * p.scale := by nlinarith
    rw [updateN_x_succ, ih hb2, constrain_zero_of_mem _ _ (by linarith) (by linarith)]
    push_cast
    ring

theorem Player.eq_of_fields (a b : Player) (hx : a.x = b.x) (hy : a.y = b.y)
    (hv : a.velocity = b.velocity) (hs : a.scale = b.scale)
    (hst : a.currentState = b.currentState) (hf : a.currentFrame = b.currentFrame)
    (hc : a.frameCounter = b.frameCounter) (hfa : a.facing = b.facing) : a = b := by
  cases a
  cases b
  simp_all

theorem handleInput_of_down (keyIsDown : Nat → Bool) (p : Player) (h : keyIsDown 68 = true) :
    handleInput keyIsDown p =
      ((((p.setState STATE.IDLE).setVelocity 0).setState STATE.WALK).setVelocity 3) := by
  simp [handleInput, h]

theorem handleInput_of_up (keyIsDown : Nat → Bool) (p : Player) (h : keyIsDown 68 = false) :
    handleInput keyIsDown p = (p.setState STATE.IDLE).setVelocity 0 := by
  simp [handleInput, h]

/-! ## Claims about `setState` and `handleInput` -/

/-- C1 (the code departs from the claim): with the D key held, `handleInput`
on a player already in `WALK` does not act as one `setState(WALK)` followed by
one `setVelocity(3)`. On the player left by the first held-key `draw()` tick
(`WALK`, counter 1) it puts `frameCounter` back to 0 where the pair of calls
keeps 1; on the walking player `walkingMidCycle` (frame 3, counter 2) it puts
`currentFrame` and `frameCounter` to 0 where the pair of calls keeps 3 and 2. -/
theorem handleInput_held_resets_walk_frame :
    keyDHeld 68 = true ∧
    (afterOneHeldTick.currentState = STATE.WALK ∧
      afterOneHeldTick.frameCounter = 1 ∧
      (handleInput keyDHeld afterOneHeldTick).frameCounter = 0 ∧
      ((afterOneHeldTick.setState STATE.WALK).setVelocity 3).frameCounter = 1) ∧
    (walkingMidCycle.currentState = STATE.WALK ∧
      (handleInput keyDHeld walkingMidCycle).currentFrame = 0 ∧
      (handleInput keyDHeld walkingMidCycle).frameCounter = 0 ∧
      ((walkingMidCycle.setState STATE.WALK).setVelocity 3).currentFrame = 3 ∧
      ((walkingMidCycle.setState STATE.WALK).setVelocity 3).frameCounter = 2 ∧
      handleInput keyDHeld walkingMidCycle ≠
        (walkingMidCycle.setState STATE.WALK).setVelocity 3) := by
  refine ⟨rfl, ⟨by decide, by decide, by decide, by decide⟩,
    rfl, by decide, by decide, by decide, by decide, ?_⟩
  intro h
  have h3 : (handleInput keyDHeld walkingMidCycle).currentFrame =
      ((walkingMidCycle.setState STATE.WALK).setVelocity 3).currentFrame := by rw [h]
  revert h3
  decide

/-- C2: when `currentState` already equals `X`, `setState(X)` returns the player
unchanged in every field (so `currentFrame` and `frameCounter` are kept), and for
every player `setState(X)` applied twice equals `setState(X)` applied once. -/
theorem setState_same_state_noop (p : Player) (X : STATE) :
    (p.currentState = X →
      p.setState X = p ∧ (p.setState X).currentFrame = p.currentFrame ∧
        (p.setState X).frameCounter = p.frameCounter) ∧
    (p.setState X).setState X = p.setState X := by
  constructor
  · intro h
    rw [setState_of_eq p X h]
    exact ⟨rfl, rfl, rfl⟩
  · exact setState_of_eq _ X (setState_currentState p X)

/-- C2 at the walking player `walkingMidCycle` and `X = WALK`. -/
theorem setState_same_state_noop_witness :
    walkingMidCycle.currentState = STATE.WALK ∧
    walkingMidCycle.setState STATE.WALK = walkingMidCycle ∧
    (walkingMidCycle.setState STATE.WALK).currentFrame = 3 ∧
    (walkingMidCycle.setState STATE.WALK).frameCounter = 2 ∧
    (walkingMidCycle.setState STATE.WALK).setState STATE.WALK =
      walkingMidCycle.setState STATE.WALK :=
  ⟨rfl, ((setState_same_state_noop walkingMidCycle STATE.WALK).1 rfl).1,
    ((setState_same_state_noop walkingMidCycle STATE.WALK).1 rfl).2.1,
    ((setState_same_state_noop walkingMidCycle STATE.WALK).1 rfl).2.2,
    (setState_same_state_noop walkingMidCycle STATE.WALK).2⟩

/-- C3: for every player and every state `Y` different from `currentState`,
`setState(Y)` sets `currentState` to `Y`, sets `currentFrame` and `frameCounter`
to 0 whatever they were, and leaves `x`, `y`, `velocity`, `facing` and `scale`
unchanged. -/
theorem setState_other_state_resets (p : Player) (Y : STATE) (h : Y ≠ p.currentState) :
    (p.setState Y).currentState = Y ∧
    (p.setState Y).currentFrame = 0 ∧
    (p.setState Y).frameCounter = 0 ∧
    (p.setState Y).x = p.x ∧
    (p.setState Y).y = p.y ∧
    (p.setState Y).velocity = p.velocity ∧
    (p.setState Y).facing = p.facing ∧
    (p.setState Y).scale = p.scale := by
  rw [setState_of_ne p Y (Ne.symm h)]
  exact ⟨rfl, rfl, rfl, rfl, rfl, rfl, rfl, rfl⟩

/-- C3 at the walking player `walkingMidCycle` (frame 3, counter 2) and `Y = ATTACK`. -/
theorem setState_other_state_resets_witness :
    STATE.ATTACK ≠ walkingMidCycle.currentState ∧
    (walkingMidCycle.setState STATE.ATTACK).currentState = STATE.ATTACK ∧
    (walkingMidCycle.setState STATE.ATTACK).currentFrame = 0 ∧
    (walkingMidCycle.setState STATE.ATTACK).frameCounter = 0 ∧
    (walkingMidCycle.setState STATE.ATTACK).x = walkingMidCycle.x ∧
    (walkingMidCycle.setState STATE.ATTACK).y = walkingMidCycle.y ∧
    (walkingMidCycle.setState STATE.ATTACK).velocity = walkingMidCycle.velocity ∧
    (walkingMidCycle.setState STATE.ATTACK).facing = walkingMidCycle.facing ∧
    (walkingMidCycle.setState STATE.ATTACK).scale = walkingMidCycle.scale :=
  ⟨by decide, setState_other_state_resets walkingMidCycle STATE.ATTACK (by decide)⟩

/-- C8: after `handleInput`, `(currentState, velocity)` is `(WALK, 3)` when key
code 68 is down and `(IDLE, 0)` when it is not, for every prior player; `x`, `y`,
`facing` and `scale` are unchanged. -/
theorem handleInput_state_velocity (keyIsDown : Nat → Bool) (p : Player) :
    (keyIsDown 68 = true →
      (handleInput keyIsDown p).currentState = STATE.WALK ∧
        (handleInput keyIsDown p).velocity = 3) ∧
    (keyIsDown 68 = false →
      (handleInput keyIsDown p).currentState = STATE.IDLE ∧
        (handleInput keyIsDown p).velocity = 0) ∧
    (handleInput keyIsDown p).x = p.x ∧
    (handleInput keyIsDown p).y = p.y ∧
    (handleInput keyIsDown p).facing = p.facing ∧
    (handleInput keyIsDown p).scale = p.scale := by
  cases h : keyIsDown 68
  · rw [handleInput_of_up keyIsDown p h]
    simp [Player.setVelocity, setState_currentState, setState_x, setState_y,
      setState_facing, setState_scale]
  · rw [handleInput_of_down keyIsDown p h]
    simp [Player.setVelocity, setState_currentState, setState_x, setState_y,
      setState_facing, setState_scale]

/-- C8 at the walking player `walkingMidCycle`, once with the D key held and once
with no key held. -/
theorem handleInput_state_velocity_witness :
    keyDHeld 68 = true ∧ noKeyHeld 68 = false ∧
    ((handleInput keyDHeld walkingMidCycle).currentState = STATE.WALK ∧
      (handleInput keyDHeld walkingMidCycle).velocity = 3) ∧
    ((handleInput noKeyHeld walkingMidCycle).currentState = STATE.IDLE ∧
      (handleInput noKeyHeld walkingMidCycle).velocity = 0) :=
  ⟨rfl, rfl, (handleInput_state_velocity keyDHeld walkingMidCycle).1 rfl,
    (handleInput_state_velocity noKeyHeld walkingMidCycle).2.1 rfl⟩

/-! ## Claims about the position clamp of `update` -/

/-- C4 as stated fails: a fresh `new Player(10, 0)` (scale 1) on a canvas of
width 100 has `x = 0` after `update()`, which is not at most
`100 - 148 * 1 = -48`. -/
theorem update_clamp_fails_narrow_canvas :
    ((Player.new 10 0).update 100).x = 0 ∧
    ¬ (0 ≤ ((Player.new 10 0).update 100).x ∧
        ((Player.new 10 0).update 100).x ≤
          100 - (animationData_IDLE.frameWidth : ℚ) * (Player.new 10 0).scale) := by
  have hx : ((Player.new 10 0).update 100).x = 0 := by
    rw [update_x]
    apply constrain_zero_of_neg
    norm_num [Player.new]
  refine ⟨hx, ?_⟩
  rw [hx]
  norm_num [Player.new, animationData_IDLE_frameWidth]

/-- C4 (amended): for every player (any state, velocity and scale) and every
canvas width, after `update()` the position satisfies `0 ≤ x`; when the canvas is
at least as wide as the scaled IDLE frame (`148 * scale ≤ width`) it also
satisfies `x ≤ width - 148 * scale`, the bound using the IDLE frame width 148
whatever the current state is; on a narrower canvas `x = 0`. -/
theorem update_clamp_bounds (p : Player) (width : ℚ) :
    animationData_IDLE.frameWidth = 148 ∧
    0 ≤ (p.update width).x ∧
    ((animationData_IDLE.frameWidth : ℚ) * p.scale ≤ width →
      (p.update width).x ≤ width - (animationData_IDLE.frameWidth : ℚ) * p.scale) ∧
    (width < (animationData_IDLE.frameWidth : ℚ) * p.scale → (p.update width).x = 0) := by
  rw [update_x, animationData_IDLE_frameWidth]
  refine ⟨rfl, constrain_zero_nonneg _ _, ?_, ?_⟩
  · intro h
    apply constrain_zero_le
    push_cast at h
    linarith
  · intro h
    apply constrain_zero_of_neg
    push_cast at h
    linarith

/-- C4 (amended) at the walking player `nearRightEdge` on a canvas of width 800,
and at a fresh player on a canvas of width 100. -/
theorem update_clamp_bounds_witness :
    (animationData_IDLE.frameWidth : ℚ) * nearRightEdge.scale ≤ 800 ∧
    (nearRightEdge.update 800).x ≤
      800 - (animationData_IDLE.frameWidth : ℚ) * nearRightEdge.scale ∧
    (100 : ℚ) < (animationData_IDLE.frameWidth : ℚ) * (Player.new 10 0).scale ∧
    ((Player.new 10 0).update 100).x = 0 :=
  ⟨by norm_num [animationData_IDLE_frameWidth, nearRightEdge],
    (update_clamp_bounds nearRightEdge 800).2.2.1
      (by norm_num [animationData_IDLE_frameWidth, nearRightEdge]),
    by norm_num [animationData_IDLE_frameWidth, Player.new],
    (update_clamp_bounds (Player.new 10 0) 100).2.2.2
      (by norm_num [animationData_IDLE_frameWidth, Player.new])⟩

/-- C7: for every player whose state is `RUN` or `ATTACK`, `update()` leaves
`currentFrame` and `currentState` unchanged and sets `x` to
`constrain(x + velocity, 0, width - 148 * scale)`; the same holds on each of any
number of consecutive ticks: after `n` ticks the frame is still the original one
and tick `n + 1` moves `x` by the same clamp rule. -/
theorem update_clipless_moves_without_animating (p : Player) (width : ℚ)
    (h : p.currentState = STATE.RUN ∨ p.currentState = STATE.ATTACK) :
    (p.update width).currentFrame = p.currentFrame ∧
    (p.update width).currentState = p.currentState ∧
    (p.update width).x = constrain (p.x + p.velocity) 0 (width - 148 * p.scale) ∧
    ∀ n : Nat,
      (updateN width n p).currentFrame = p.currentFrame ∧
      (updateN width n p).currentState = p.currentState ∧
      (updateN width (n + 1) p).x =
        constrain ((updateN width n p).x + p.velocity) 0 (width - 148 * p.scale) := by
  have hnone : currentAnimData p.currentState = none := by
    rcases h with h | h <;> rw [h] <;> rfl
  refine ⟨(update_frames_of_none width p hnone).1, update_currentState width p,
    update_x width p, ?_⟩
  intro n
  refine ⟨?_, updateN_currentState width n p, updateN_x_succ width n p⟩
  induction n with
  | zero => rfl
  | succ n ih =>
    rw [updateN_succ]
    have hn : currentAnimData (updateN width n p).currentState = none := by
      rw [updateN_currentState]; exact hnone
    rw [(update_frames_of_none width _ hn).1, ih]

/-- C7 at the player `attackingPlayer` (state `ATTACK`, `x = 160`, velocity 3) on
a canvas of width 800: the frame stays 0 and `x` becomes 163. -/
theorem update_clipless_moves_without_animating_witness :
    (attackingPlayer.currentState = STATE.RUN ∨
      attackingPlayer.currentState = STATE.ATTACK) ∧
    (attackingPlayer.update 800).currentFrame = 0 ∧
    (attackingPlayer.update 800).x = 163 := by
  have h := update_clipless_moves_without_animating attackingPlayer 800 (Or.inr rfl)
  refine ⟨Or.inr rfl, h.1, ?_⟩
  rw [h.2.2.1]
  norm_num [attackingPlayer, constrain]

/-- C10: on a canvas of width 800, for every player with `scale = 1`,
`velocity = 3` and `x = 799` (in any state, at any frame), the position after `n`
consecutive `update()` calls is exactly `652 = 800 - 148` for every `n ≥ 1`;
so `x` never exceeds 652 after any tick. -/
theorem update_clamps_at_652 (p : Player) (n : Nat) (hn : 1 ≤ n)
    (hx : p.x = 799) (hv : p.velocity = 3) (hs : p.scale = 1) :
    (800 : ℚ) - (animationData_IDLE.frameWidth : ℚ) * p.scale = 652 ∧
    (updateN 800 n p).x = 652 ∧ (updateN 800 n p).x ≤ 652 := by
  have key : ∀ m : Nat, (updateN 800 (m + 1) p).x = 652 := by
    intro m
    induction m with
    | zero =>
      rw [updateN_x_succ, hv, hs]
      show constrain (p.x + 3) 0 (800 - 148 * 1) = 652
      rw [hx]
      norm_num [constrain]
    | succ m ih =>
      rw [updateN_x_succ, ih, hv, hs]
      norm_num [constrain]
  obtain ⟨m, rfl⟩ : ∃ m, n = m + 1 := ⟨n - 1, by omega⟩
  refine ⟨?_, key m, le_of_eq (key m)⟩
  rw [hs, animationData_IDLE_frameWidth]
  norm_num

/-- C10 at the walking player `nearRightEdge` after 1 and after 5 ticks. -/
theorem update_clamps_at_652_witness :
    nearRightEdge.x = 799 ∧ nearRightEdge.velocity = 3 ∧ nearRightEdge.scale = 1 ∧
    (updateN 800 1 nearRightEdge).x = 652 ∧ (updateN 800 5 nearRightEdge).x = 652 :=
  ⟨rfl, rfl, rfl,
    (update_clamps_at_652 nearRightEdge 1 (by decide) rfl rfl rfl).2.1,
    (update_clamps_at_652 nearRightEdge 5 (by decide) rfl rfl rfl).2.1⟩

/-! ## Claims about frame timing -/

/-- While fewer than `frameDelay` ticks have elapsed since the counter was 0 the
frame is held and the counter counts the ticks. -/
theorem updateN_hold (w : ℚ) (p : Player) (d : AnimData)
    (h : currentAnimData p.currentState = some d) (h0 : p.frameCounter = 0)
    (k : Nat) (hk : k < d.frameDelay) :
    (updateN w k p).currentFrame = p.currentFrame ∧ (updateN w k p).frameCounter = k := by
  induction k with
  | zero => exact ⟨rfl, h0⟩
  | succ k ih =>
    have ihk := ih (Nat.lt_of_succ_lt hk)
    have hst : currentAnimData (updateN w k p).currentState = some d := by
      rw [updateN_currentState]; exact h
    have hlt : (updateN w k p).frameCounter + 1 < d.frameDelay := by
      rw [ihk.2]; exact hk
    have hu := update_frames_of_lt w (updateN w k p) d hst hlt
    rw [updateN_succ]
    exact ⟨hu.1.trans ihk.1, by rw [hu.2, ihk.2]⟩

/-- The tick number `frameDelay` after the counter was 0 advances the frame once
and clears the counter. -/
theorem updateN_advance (w : ℚ) (p : Player) (d : AnimData)
    (h : currentAnimData p.currentState = some d) (h0 : p.frameCounter = 0)
    (hd : 1 ≤ d.frameDelay) :
    (updateN w d.frameDelay p).currentFrame = (p.currentFrame + 1) % d.frameCount ∧
      (updateN w d.frameDelay p).frameCounter = 0 := by
  obtain ⟨m, hm⟩ : ∃ m, d.frameDelay = m + 1 := ⟨d.frameDelay - 1, by omega⟩
  have hold := updateN_hold w p d h h0 m (by omega)
  have hst : currentAnimData (updateN w m p).currentState = some d := by
    rw [updateN_currentState]; exact h
  have hge : d.frameDelay ≤ (updateN w m p).frameCounter + 1 := by
    rw [hold.2]; omega
  have hu := update_frames_of_ge w (updateN w m p) d hst hge
  rw [hm, updateN_succ]
  exact ⟨by rw [hu.1, hold.1], hu.2⟩

theorem currentAnimData_frameDelay_pos (S : STATE) (d : AnimData)
    (h : currentAnimData S = some d) : 1 ≤ d.frameDelay := by
  cases S <;> simp [currentAnimData] at h <;> subst h <;> decide

theorem currentAnimData_frameCount_pos (S : STATE) (d : AnimData)
    (h : currentAnimData S = some d) : 0 < d.frameCount := by
  cases S <;> simp [currentAnimData] at h <;> subst h <;> decide

/-- Closed form of the frame fields after `n` ticks in a state with clip `d`,
starting from counter 0 and a frame inside the clip. -/
theorem updateN_frames (w : ℚ) (p : Player) (d : AnimData)
    (h : currentAnimData p.currentState = some d) (h0 : p.frameCounter = 0)
    (hf : p.currentFrame < d.frameCount) (hd : 1 ≤ d.frameDelay) (n : Nat) :
    (updateN w n p).currentFrame = (p.currentFrame + n / d.frameDelay) % d.frameCount ∧
      (updateN w n p).frameCounter = n % d.frameDelay := by
  induction n with
  | zero =>
    refine ⟨?_, ?_⟩
    · show p.currentFrame = (p.currentFrame + 0 / d.frameDelay) % d.frameCount
      rw [Nat.zero_div, Nat.add_zero, Nat.mod_eq_of_lt hf]
    · show p.frameCounter = 0 % d.frameDelay
      rw [Nat.zero_mod]; exact h0
  | succ n ih =>
    have hst : currentAnimData (updateN w n p).currentState = some d := by
      rw [updateN_currentState]; exact h
    have hmod : n % d.frameDelay < d.frameDelay := Nat.mod_lt _ hd
    rw [updateN_succ]
    by_cases hlt : n % d.frameDelay + 1 < d.frameDelay
    · have hu := update_frames_of_lt w (updateN w n p) d hst (by rw [ih.2]; exact hlt)
      have hdiv : (n + 1) / d.frameDelay = n / d.frameDelay := by
        rw [Nat.succ_div, if_neg]
        · rfl
        · intro hdvd
          have := Nat.mod_eq_zero_of_dvd hdvd
          rw [Nat.add_mod] at this
          have h1 : 1 % d.frameDelay = 1 := Nat.mod_eq_of_lt (by omega)
          rw [h1, Nat.mod_eq_of_lt hlt] at this
          omega
      have hm : (n + 1) % d.frameDelay = n % d.frameDelay + 1 := by
        rw [Nat.add_mod]
        have h1 : 1 % d.frameDelay = 1 := Nat.mod_eq_of_lt (by omega)
        rw [h1, Nat.mod_eq_of_lt hlt]
      exact ⟨by rw [hu.1, ih.1, hdiv], by rw [hu.2, ih.2, hm]⟩
    · have heq : n % d.frameDelay + 1 = d.frameDelay := by omega
      have hu := update_frames_of_ge w (updateN w n p) d hst (by rw [ih.2]; omega)
      have hm : (n + 1) % d.frameDelay = 0 := by
        rw [Nat.add_mod]
        by_cases hd1 : d.frameDelay = 1
        · rw [hd1, Nat.mod_one]
        · have h1 : 1 % d.frameDelay = 1 := Nat.mod_eq_of_lt (by omega)
          rw [h1, heq, Nat.mod_self]
      have hdiv : (n + 1) / d.frameDelay = n / d.frameDelay + 1 := by
        rw [Nat.succ_div, if_pos (Nat.dvd_of_mod_eq_zero hm)]
      refine ⟨?_, by rw [hu.2, hm]⟩
      rw [hu.1, ih.1, hdiv, Nat.add_mod, Nat.mod_mod, ← Nat.add_mod, Nat.add_assoc]

theorem reachable_updateN (w : ℚ) (n : Nat) (p : Player) (h : Reachable p) :
    Reachable (updateN w n p) := by
  induction n with
  | zero => exact h
  | succ n ih => exact Reachable.update w ih

theorem reachable_walkScenario : Reachable walkScenario :=
  Reachable.setVelocity 3 (Reachable.setState STATE.WALK (Reachable.new 100 50))

theorem walkingMidCycle_eq : updateN 800 20 walkScenario = walkingMidCycle := by
  have hfr := updateN_frames 800 walkScenario animationData_WALK rfl rfl (by decide)
    (by decide) 20
  have hx : walkScenario.x = 100 := rfl
  have hv : walkScenario.velocity = 3 := rfl
  have hs : walkScenario.scale = 1 := rfl
  apply Player.eq_of_fields
  · rw [updateN_x_free 800 walkScenario 20 (by rw [hv]; norm_num) (by rw [hx]; norm_num)
      (by rw [hx, hv, hs]; norm_num), hx, hv]
    show (100 : ℚ) + (20 : ℕ) * 3 = 160
    norm_num
  · rw [updateN_y]; rfl
  · rw [updateN_velocity]; rfl
  · rw [updateN_scale]; rfl
  · rw [updateN_currentState]; rfl
  · exact hfr.1
  · exact hfr.2
  · rw [updateN_facing]; rfl

theorem reachable_walkingMidCycle : Reachable walkingMidCycle := by
  rw [← walkingMidCycle_eq]
  exact reachable_updateN 800 20 walkScenario reachable_walkScenario

theorem reachable_afterOneHeldTick : Reachable afterOneHeldTick :=
  Reachable.update 800 (Reachable.handleInput keyDHeld (Reachable.new 100 50))

/-- C5: for every state `S` with a clip `d` (`IDLE`, `WALK`) and every player in
state `S` whose `frameCounter` is 0, after fewer than `d.frameDelay` consecutive
`update()` calls `currentFrame` is still the original frame, and after exactly
`d.frameDelay` calls it is `(currentFrame + 1) % d.frameCount` with
`frameCounter = 0`. -/
theorem update_frameDelay_times_advances_one (S : STATE) (d : AnimData)
    (hS : currentAnimData S = some d) (width : ℚ) (p : Player)
    (hp : p.currentState = S) (h0 : p.frameCounter = 0) :
    (∀ k : Nat, k < d.frameDelay → (updateN width k p).currentFrame = p.currentFrame) ∧
    (updateN width d.frameDelay p).currentFrame = (p.currentFrame + 1) % d.frameCount ∧
    (updateN width d.frameDelay p).frameCounter = 0 := by
  have h : currentAnimData p.currentState = some d := by rw [hp]; exact hS
  have hadv := updateN_advance width p d h h0 (currentAnimData_frameDelay_pos S d hS)
  exact ⟨fun k hk => (updateN_hold width p d h h0 k hk).1, hadv.1, hadv.2⟩

/-- C5 at a fresh `new Player(100, 50)` (state `IDLE`, delay 8, 6 frames): the
frame is still 0 after 7 ticks and is 1, with the counter back at 0, after 8. -/
theorem update_frameDelay_times_advances_one_witness :
    currentAnimData STATE.IDLE = some animationData_IDLE ∧
    (Player.new 100 50).currentState = STATE.IDLE ∧
    (Player.new 100 50).frameCounter = 0 ∧
    (updateN 800 7 (Player.new 100 50)).currentFrame = 0 ∧
    (updateN 800 8 (Player.new 100 50)).currentFrame = 1 ∧
    (updateN 800 8 (Player.new 100 50)).frameCounter = 0 :=
  ⟨rfl, rfl, rfl,
    (update_frameDelay_times_advances_one STATE.IDLE animationData_IDLE rfl 800
      (Player.new 100 50) rfl rfl).1 7 (by decide),
    (update_frameDelay_times_advances_one STATE.IDLE animationData_IDLE rfl 800
      (Player.new 100 50) rfl rfl).2.1,
    (update_frameDelay_times_advances_one STATE.IDLE animationData_IDLE rfl 800
      (Player.new 100 50) rfl rfl).2.2⟩

/-! ## The frame index stays inside the active clip -/

theorem frameInClip_new (x y : ℚ) : FrameInClip (Player.new x y) := by
  intro d hd
  exact currentAnimData_frameCount_pos _ d hd

theorem frameInClip_setState (p : Player) (s : STATE) (h : FrameInClip p) :
    FrameInClip (p.setState s) := by
  by_cases hs : p.currentState = s
  · rw [setState_of_eq p s hs]; exact h
  · rw [setState_of_ne p s hs]
    intro d hd
    exact currentAnimData_frameCount_pos s d hd

theorem frameInClip_setVelocity (p : Player) (v : ℚ) (h : FrameInClip p) :
    FrameInClip (p.setVelocity v) := h

theorem frameInClip_update (p : Player) (w : ℚ) (h : FrameInClip p) :
    FrameInClip (p.update w) := by
  intro d hd
  rw [update_currentState] at hd
  by_cases hlt : p.frameCounter + 1 < d.frameDelay
  · rw [(update_frames_of_lt w p d hd hlt).1]
    exact h d hd
  · rw [(update_frames_of_ge w p d hd (Nat.not_lt.mp hlt)).1]
    exact Nat.mod_lt _ (currentAnimData_frameCount_pos _ d hd)

theorem frameInClip_handleInput (keyIsDown : Nat → Bool) (p : Player) (h : FrameInClip p) :
    FrameInClip (handleInput keyIsDown p) := by
  cases hk : keyIsDown 68
  · rw [handleInput_of_up keyIsDown p hk]
    exact frameInClip_setVelocity _ _ (frameInClip_setState _ _ h)
  · rw [handleInput_of_down keyIsDown p hk]
    exact frameInClip_setVelocity _ _ (frameInClip_setState _ _
      (frameInClip_setVelocity _ _ (frameInClip_setState _ _ h)))

theorem frameInClip_of_reachable (p : Player) (h : Reachable p) : FrameInClip p := by
  induction h with
  | new x y => exact frameInClip_new x y
  | setState s _ ih => exact frameInClip_setState _ s ih
  | setVelocity v _ ih => exact frameInClip_setVelocity _ v ih
  | update w _ ih => exact frameInClip_update _ w ih
  | handleInput k _ ih => exact frameInClip_handleInput k _ ih

/-- C6: in every state reachable from `new Player(x, y)` by `setState`,
`setVelocity`, `update` and `handleInput` calls, if the current state has a clip
`d` then `0 ≤ currentFrame ≤ d.frameCount - 1`; and a reachable player in `WALK`
on frame 7 that is switched to `IDLE` has `currentFrame = 0`, which is at most
`5 = 6 - 1`. -/
theorem reachable_frame_in_clip (p : Player) (h : Reachable p) :
    (∀ d : AnimData, currentAnimData p.currentState = some d →
      0 ≤ p.currentFrame ∧ p.currentFrame ≤ d.frameCount - 1) ∧
    (p.currentState = STATE.WALK → p.currentFrame = 7 →
      (p.setState STATE.IDLE).currentFrame = 0 ∧
      (p.setState STATE.IDLE).currentFrame ≤ animationData_IDLE.frameCount - 1) := by
  constructor
  · intro d hd
    have := frameInClip_of_reachable p h d hd
    omega
  · intro hw _
    have hne : p.currentState ≠ STATE.IDLE := by rw [hw]; decide
    rw [setState_of_ne p STATE.IDLE hne]
    exact ⟨rfl, Nat.zero_le _⟩

/-- C6 at the player reached from `new Player(100, 50)` by `setState(WALK)`,
`setVelocity(3)` and 42 `update()` calls: it is in `WALK` on the last frame 7,
within the 8 walk frames, and switching it to `IDLE` gives a frame within the 6
idle frames. -/
theorem reachable_frame_in_clip_witness :
    Reachable (updateN 800 42 walkScenario) ∧
    (updateN 800 42 walkScenario).currentState = STATE.WALK ∧
    (updateN 800 42 walkScenario).currentFrame = 7 ∧
    (updateN 800 42 walkScenario).currentFrame ≤ animationData_WALK.frameCount - 1 ∧
    ((updateN 800 42 walkScenario).setState STATE.IDLE).currentFrame ≤
      animationData_IDLE.frameCount - 1 := by
  have hr := reachable_updateN 800 42 walkScenario reachable_walkScenario
  have hs : (updateN 800 42 walkScenario).currentState = STATE.WALK := by
    rw [updateN_currentState]; rfl
  have hf : (updateN 800 42 walkScenario).currentFrame = 7 :=
    (updateN_frames 800 walkScenario animationData_WALK rfl rfl (by decide) (by decide) 42).1
  exact ⟨hr, hs, hf,
    ((reachable_frame_in_clip _ hr).1 animationData_WALK (by rw [hs]; rfl)).2,
    ((reachable_frame_in_clip _ hr).2 hs hf).2⟩

/-! ## The walk scenario -/

/-- C9 as stated fails: on a canvas of width 200 the scenario player
(`new Player(100, 50)`, then `setState(WALK)`, `setVelocity(3)`) has `x = 52`,
not 118, after six `update()` calls. -/
theorem walk_scenario_fails_narrow_canvas :
    (Player.new 100 50).currentState = STATE.IDLE ∧
    (updateN 200 6 (((Player.new 100 50).setState STATE.WALK).setVelocity 3)).x = 52 ∧
    (updateN 200 6 (((Player.new 100 50).setState STATE.WALK).setVelocity 3)).x ≠ 118 := by
  have hv : (((Player.new 100 50).setState STATE.WALK).setVelocity 3).velocity = 3 := rfl
  have hs : (((Player.new 100 50).setState STATE.WALK).setVelocity 3).scale = 1 := rfl
  have hx : (((Player.new 100 50).setState STATE.WALK).setVelocity 3).x = 100 := rfl
  have key : ∀ m : Nat,
      (updateN 200 (m + 1) (((Player.new 100 50).setState STATE.WALK).setVelocity 3)).x
        = 52 := by
    intro m
    induction m with
    | zero =>
      rw [updateN_x_succ, hv, hs]
      show constrain ((((Player.new 100 50).setState STATE.WALK).setVelocity 3).x + 3) 0
        (200 - 148 * 1) = 52
      rw [hx]
      norm_num [constrain]
    | succ m ih =>
      rw [updateN_x_succ, ih, hv, hs]
      norm_num [constrain]
  refine ⟨rfl, key 5, ?_⟩
  rw [key 5]
  norm_num

/-- C9 (amended): with the catalog IDLE(148, 6 frames, delay 8) / WALK(156, 8
frames, delay 6), for every player with `currentState = IDLE`, `currentFrame = 0`,
`frameCounter = 0`, `x = 100`, `velocity = 0`, `scale = 1` and every canvas
width, after `setState(WALK)`, `setVelocity(3)` and six `update()` calls
`currentFrame = 1` and `frameCounter = 0`, with `currentState = WALK` after each
of the calls; `x = 118` holds exactly when the canvas width is at least
`266 = 118 + 148`. -/
theorem walk_scenario_six_ticks (p : Player) (width : ℚ)
    (hst : p.currentState = STATE.IDLE) (_hf : p.currentFrame = 0)
    (_hc : p.frameCounter = 0) (hx : p.x = 100) (_hv : p.velocity = 0)
    (hs : p.scale = 1) :
    (animationData_IDLE.frameWidth = 148 ∧ animationData_IDLE.frameCount = 6 ∧
      animationData_IDLE.frameDelay = 8 ∧ animationData_WALK.frameWidth = 156 ∧
      animationData_WALK.frameCount = 8 ∧ animationData_WALK.frameDelay = 6) ∧
    (∀ k : Nat, k ≤ 6 →
      (updateN width k ((p.setState STATE.WALK).setVelocity 3)).currentState
        = STATE.WALK) ∧
    (updateN width 6 ((p.setState STATE.WALK).setVelocity 3)).currentFrame = 1 ∧
    (updateN width 6 ((p.setState STATE.WALK).setVelocity 3)).frameCounter = 0 ∧
    ((updateN width 6 ((p.setState STATE.WALK).setVelocity 3)).x = 118 ↔
      266 ≤ width) := by
  have hne : p.currentState ≠ STATE.WALK := by rw [hst]; decide
  have hq := setState_of_ne p STATE.WALK hne
  generalize hqdef : (p.setState STATE.WALK).setVelocity 3 = q
  have hqs : q.currentState = STATE.WALK := by rw [← hqdef, hq]; rfl
  have hqf : q.currentFrame = 0 := by rw [← hqdef, hq]; rfl
  have hqc : q.frameCounter = 0 := by rw [← hqdef, hq]; rfl
  have hqx : q.x = 100 := by rw [← hqdef, hq]; exact hx
  have hqv : q.velocity = 3 := by rw [← hqdef]; rfl
  have hqsc : q.scale = 1 := by rw [← hqdef, hq]; exact hs
  have hclip : currentAnimData q.currentState = some animationData_WALK := by
    rw [hqs]; rfl
  have hadv := updateN_advance width q animationData_WALK hclip hqc (by decide)
  refine ⟨⟨rfl, rfl, rfl, rfl, rfl, rfl⟩, ?_, ?_, hadv.2, ?_⟩
  · intro k _
    rw [updateN_currentState]; exact hqs
  · have h1 := hadv.1
    rw [hqf] at h1
    exact h1
  · constructor
    · intro h118
      by_contra hlt
      have hle := constrain_zero_le_max ((updateN width 5 q).x + q.velocity)
        (width - 148 * q.scale)
      rw [← updateN_x_succ, h118, hqsc] at hle
      have hlt2 : max (width - 148 * 1) 0 < 118 := by
        apply max_lt <;> linarith [not_le.mp hlt]
      linarith
    · intro hw
      have key : ∀ k : Nat, k ≤ 6 → (updateN width k q).x = 100 + 3 * (k : ℚ) := by
        intro k
        induction k with
        | zero => intro _; rw [Nat.cast_zero, mul_zero, add_zero]; exact hqx
        | succ k ih =>
          intro hk
          have hk6 : (k : ℚ) + 1 ≤ 6 := by exact_mod_cast hk
          have hk0 : (0 : ℚ) ≤ k := Nat.cast_nonneg k
          rw [updateN_x_succ, ih (Nat.le_of_succ_le hk), hqv, hqsc,
            constrain_zero_of_mem _ _ (by linarith) (by linarith)]
          push_cast
          ring
      rw [key 6 le_rfl]
      norm_num

/-- C9 (amended) at `new Player(100, 50)` on a canvas of width 800. -/
theorem walk_scenario_six_ticks_witness :
    (Player.new 100 50).currentState = STATE.IDLE ∧
    (Player.new 100 50).currentFrame = 0 ∧
    (Player.new 100 50).frameCounter = 0 ∧
    (Player.new 100 50).x = 100 ∧
    (Player.new 100 50).velocity = 0 ∧
    (Player.new 100 50).scale = 1 ∧
    (updateN 800 6 walkScenario).currentState = STATE.WALK ∧
    (updateN 800 6 walkScenario).currentFrame = 1 ∧
    (updateN 800 6 walkScenario).frameCounter = 0 ∧
    (updateN 800 6 walkScenario).x = 118 :=
  ⟨rfl, rfl, rfl, rfl, rfl, rfl,
    (walk_scenario_six_ticks (Player.new 100 50) 800 rfl rfl rfl rfl rfl rfl).2.1 6 le_rfl,
    (walk_scenario_six_ticks (Player.new 100 50) 800 rfl rfl rfl rfl rfl rfl).2.2.1,
    (walk_scenario_six_ticks (Player.new 100 50) 800 rfl rfl rfl rfl rfl rfl).2.2.2.1,
    (walk_scenario_six_ticks (Player.new 100 50) 800 rfl rfl rfl rfl rfl rfl).2.2.2.2.2
      (by norm_num)⟩

/-! ## Claims about `display` -/

theorem display_of_none (p : Player) (h : displaySwitch p.currentState = none) :
    p.display = (p, []) := by
  simp [Player.display, h]

theorem display_of_some (p : Player) (d : AnimData) (sheet : SpriteSheet)
    (h : displaySwitch p.currentState = some (d, sheet)) :
    p.display =
      (p, [CanvasOp.push,
           CanvasOp.translate p.x p.y,
           CanvasOp.scale ((p.facing : ℚ) * p.scale) p.scale,
           CanvasOp.image sheet 0 0 d.frameWidth d.frameHeight
             (p.currentFrame * d.frameWidth) 0 d.frameWidth d.frameHeight,
           CanvasOp.pop]) := by
  simp [Player.display, h]

theorem display_fst (p : Player) : p.display.1 = p := by
  unfold Player.display
  split <;> rfl

/-- C12: `display()` changes no field of the player; in `RUN` and `ATTACK` it
issues no drawing call; in `IDLE` (resp. `WALK`) it issues `push`, `translate`,
`scale`, one `image` call and `pop`, and that single `image` call blits from the
IDLE (resp. WALK) sheet the source rectangle
`(currentFrame * 148, 0, 148, 176)` (resp. `(currentFrame * 156, 0, 156, 184)`). -/
theorem display_blits_current_frame (p : Player) :
    p.display.1 = p ∧
    (p.currentState = STATE.RUN ∨ p.currentState = STATE.ATTACK → p.display.2 = []) ∧
    (p.currentState = STATE.IDLE →
      p.display.2 =
        [CanvasOp.push, CanvasOp.translate p.x p.y,
         CanvasOp.scale ((p.facing : ℚ) * p.scale) p.scale,
         CanvasOp.image SpriteSheet.idleSpriteSheet 0 0 148 176
           (p.currentFrame * 148) 0 148 176,
         CanvasOp.pop] ∧
      imageOps p.display.2 =
        [CanvasOp.image SpriteSheet.idleSpriteSheet 0 0 148 176
           (p.currentFrame * 148) 0 148 176]) ∧
    (p.currentState = STATE.WALK →
      p.display.2 =
        [CanvasOp.push, CanvasOp.translate p.x p.y,
         CanvasOp.scale ((p.facing : ℚ) * p.scale) p.scale,
         CanvasOp.image SpriteSheet.walkSpriteSheet 0 0 156 184
           (p.currentFrame * 156) 0 156 184,
         CanvasOp.pop] ∧
      imageOps p.display.2 =
        [CanvasOp.image SpriteSheet.walkSpriteSheet 0 0 156 184
           (p.currentFrame * 156) 0 156 184]) := by
  refine ⟨display_fst p, ?_, ?_, ?_⟩
  · intro h
    have hn : displaySwitch p.currentState = none := by
      rcases h with h | h <;> rw [h] <;> rfl
    rw [display_of_none p hn]
  · intro h
    have hs : displaySwitch p.currentState =
        some (animationData_IDLE, SpriteSheet.idleSpriteSheet) := by rw [h]; rfl
    rw [display_of_some p _ _ hs]
    exact ⟨rfl, rfl⟩
  · intro h
    have hs : displaySwitch p.currentState =
        some (animationData_WALK, SpriteSheet.walkSpriteSheet) := by rw [h]; rfl
    rw [display_of_some p _ _ hs]
    exact ⟨rfl, rfl⟩

/-- C12 at the players `attackingPlayer` (no drawing call) and `walkingMidCycle`
(frame 3 of the WALK sheet: source rectangle `(468, 0, 156, 184)`). -/
theorem display_blits_current_frame_witness :
    (attackingPlayer.currentState = STATE.RUN ∨
      attackingPlayer.currentState = STATE.ATTACK) ∧
    attackingPlayer.display.2 = [] ∧
    walkingMidCycle.currentState = STATE.WALK ∧
    imageOps walkingMidCycle.display.2 =
      [CanvasOp.image SpriteSheet.walkSpriteSheet 0 0 156 184 468 0 156 184] ∧
    walkingMidCycle.display.1 = walkingMidCycle :=
  ⟨Or.inr rfl, (display_blits_current_frame attackingPlayer).2.1 (Or.inr rfl), rfl,
    ((display_blits_current_frame walkingMidCycle).2.2.2 rfl).2,
    (display_blits_current_frame walkingMidCycle).1⟩

/-- C13: `update()` leaves `y`, `velocity`, `currentState`, `facing` and `scale`
unchanged for every player and canvas width (so it can change only `x`,
`currentFrame` and `frameCounter`), and `setVelocity(v)` sets `velocity` to `v`
for every `v` and changes no other field. -/
theorem update_and_setVelocity_footprint (p : Player) (width v : ℚ) :
    ((p.update width).y = p.y ∧
      (p.update width).velocity = p.velocity ∧
      (p.update width).currentState = p.currentState ∧
      (p.update width).facing = p.facing ∧
      (p.update width).scale = p.scale) ∧
    ((p.setVelocity v).velocity = v ∧
      (p.setVelocity v).x = p.x ∧
      (p.setVelocity v).y = p.y ∧
      (p.setVelocity v).scale = p.scale ∧
      (p.setVelocity v).currentState = p.currentState ∧
      (p.setVelocity v).currentFrame = p.currentFrame ∧
      (p.setVelocity v).frameCounter = p.frameCounter ∧
      (p.setVelocity v).facing = p.facing) :=
  ⟨⟨update_y width p, update_velocity width p, update_currentState width p,
      update_facing width p, update_scale width p⟩,
    ⟨rfl, rfl, rfl, rfl, rfl, rfl, rfl, rfl⟩⟩

/-- C15: each catalog `frameWidth` is the truncated quotient of the sheet width
by the frame count (IDLE `889 / 6 = 148`, WALK `1251 / 8 = 156`), so
`frameWidth * frameCount` is at most the sheet width; and for every player whose
state has a clip and whose `currentFrame` is in `[0, frameCount - 1]`, every
`image` call of `display()` reads from that state's sheet a source rectangle
starting at `currentFrame * frameWidth`, `frameWidth` wide, that ends inside the
sheet (889 for IDLE, 1251 for WALK). -/
theorem frameWidth_truncated_source_inside_sheet (S : STATE) (d : AnimData)
    (sheet : SpriteSheet) (hS : displaySwitch S = some (d, sheet)) :
    (animationData_IDLE.frameWidth = 148 ∧ animationData_WALK.frameWidth = 156 ∧
      sheetWidth SpriteSheet.idleSpriteSheet = 889 ∧
      sheetWidth SpriteSheet.walkSpriteSheet = 1251) ∧
    d.frameWidth = sheetWidth sheet / d.frameCount ∧
    d.frameWidth * d.frameCount ≤ sheetWidth sheet ∧
    ∀ p : Player, p.currentState = S → p.currentFrame ≤ d.frameCount - 1 →
      ∀ (img : SpriteSheet) (dx dy dw dh sx sy sw sh : Nat),
        CanvasOp.image img dx dy dw dh sx sy sw sh ∈ p.display.2 →
          img = sheet ∧ sx = p.currentFrame * d.frameWidth ∧ sw = d.frameWidth ∧
            sx + sw ≤ sheetWidth sheet := by
  refine ⟨⟨rfl, rfl, rfl, rfl⟩, ?_, ?_, ?_⟩
  · cases S <;> simp [displaySwitch] at hS <;> obtain ⟨rfl, rfl⟩ := hS <;> rfl
  · cases S <;> simp [displaySwitch] at hS <;> obtain ⟨rfl, rfl⟩ := hS <;> decide
  · intro p hp hf img dx dy dw dh sx sy sw sh hmem
    have hsw : displaySwitch p.currentState = some (d, sheet) := by rw [hp]; exact hS
    rw [display_of_some p d sheet hsw] at hmem
    simp at hmem
    obtain ⟨rfl, -, -, -, -, rfl, -, rfl, -⟩ := hmem
    refine ⟨rfl, rfl, rfl, ?_⟩
    cases S <;> simp [displaySwitch] at hS <;> obtain ⟨rfl, rfl⟩ := hS
    · have h5 : p.currentFrame ≤ 5 := hf
      show p.currentFrame * 148 + 148 ≤ 889
      omega
    · have h7 : p.currentFrame ≤ 7 := hf
      show p.currentFrame * 156 + 156 ≤ 1251
      omega

/-- C15 at the walking player `walkingLastFrame` (frame 7 of 8): the source
rectangle starts at `7 * 156 = 1092` and ends at 1248, inside the 1251 pixels of
the WALK sheet. -/
theorem frameWidth_truncated_source_inside_sheet_witness :
    displaySwitch STATE.WALK = some (animationData_WALK, SpriteSheet.walkSpriteSheet) ∧
    walkingLastFrame.currentState = STATE.WALK ∧
    walkingLastFrame.currentFrame ≤ animationData_WALK.frameCount - 1 ∧
    CanvasOp.image SpriteSheet.walkSpriteSheet 0 0 156 184 1092 0 156 184 ∈
      walkingLastFrame.display.2 ∧
    1092 + 156 ≤ sheetWidth SpriteSheet.walkSpriteSheet :=
  ⟨rfl, rfl, by decide, by simp [Player.display, displaySwitch, walkingLastFrame, animationData_WALK],
    ((frameWidth_truncated_source_inside_sheet STATE.WALK animationData_WALK
      SpriteSheet.walkSpriteSheet rfl).2.2.2 walkingLastFrame rfl (by decide)
      SpriteSheet.walkSpriteSheet 0 0 156 184 1092 0 156 184
      (by simp [Player.display, displaySwitch, walkingLastFrame, animationData_WALK])).2.2.2⟩

/-! ## The draw loop -/

theorem handleInput_x (k : Nat → Bool) (p : Player) : (handleInput k p).x = p.x := by
  cases h : k 68
  · rw [handleInput_of_up k p h]; exact setState_x p _
  · rw [handleInput_of_down k p h]
    exact (setState_x _ _).trans (setState_x p _)

theorem handleInput_scale (k : Nat → Bool) (p : Player) :
    (handleInput k p).scale = p.scale := by
  cases h : k 68
  · rw [handleInput_of_up k p h]; exact setState_scale p _
  · rw [handleInput_of_down k p h]
    exact (setState_scale _ _).trans (setState_scale p _)

/-- With the D key held, `handleInput` always leaves a walking player on frame 0
with counter 0 and velocity 3. -/
theorem handleInput_of_down_fields (k : Nat → Bool) (p : Player) (h : k 68 = true) :
    (handleInput k p).currentState = STATE.WALK ∧
    (handleInput k p).currentFrame = 0 ∧
    (handleInput k p).frameCounter = 0 ∧
    (handleInput k p).velocity = 3 := by
  rw [handleInput_of_down k p h]
  have hne : ((p.setState STATE.IDLE).setVelocity 0).currentState ≠ STATE.WALK := by
    show (p.setState STATE.IDLE).currentState ≠ STATE.WALK
    rw [setState_currentState]; decide
  rw [setState_of_ne _ _ hne]
  exact ⟨rfl, rfl, rfl, rfl⟩

theorem drawTick_of_down_fields (k : Nat → Bool) (w : ℚ) (p : Player) (h : k 68 = true) :
    (drawTick k w p).currentState = STATE.WALK ∧
    (drawTick k w p).currentFrame = 0 ∧
    (drawTick k w p).frameCounter = 1 := by
  obtain ⟨hs, hf, hc, -⟩ := handleInput_of_down_fields k p h
  have hclip : currentAnimData (handleInput k p).currentState = some animationData_WALK := by
    rw [hs]; rfl
  have hu := update_frames_of_lt w (handleInput k p) animationData_WALK hclip
    (by rw [hc]; decide)
  unfold drawTick
  refine ⟨by rw [update_currentState, hs], by rw [hu.1, hf], by rw [hu.2, hc]⟩

theorem drawTick_of_down_x (k : Nat → Bool) (w : ℚ) (p : Player) (h : k 68 = true) :
    (drawTick k w p).x = constrain (p.x + 3) 0 (w - 148 * p.scale) := by
  unfold drawTick
  rw [update_x, handleInput_x, handleInput_scale, (handleInput_of_down_fields k p h).2.2.2]

theorem drawTick_scale (k : Nat → Bool) (w : ℚ) (p : Player) :
    (drawTick k w p).scale = p.scale := by
  unfold drawTick
  rw [update_scale, handleInput_scale]

theorem drawTicks_append (l1 l2 : List ((Nat → Bool) × ℚ)) (p : Player) :
    drawTicks (l1 ++ l2) p = drawTicks l2 (drawTicks l1 p) := by
  induction l1 generalizing p with
  | nil => rfl
  | cons i l1 ih => exact ih _

theorem reachable_drawTicks (l : List ((Nat → Bool) × ℚ)) (p : Player) (h : Reachable p) :
    Reachable (drawTicks l p) := by
  induction l generalizing p with
  | nil => exact h
  | cons i l ih => exact ih _ (Reachable.update i.2 (Reachable.handleInput i.1 h))

/-- After any nonempty run of ticks in which the D key is held on the last tick,
the player walks on frame 0 with counter 1. -/
theorem drawTicks_last_down_fields (l : List ((Nat → Bool) × ℚ)) (p : Player)
    (hne : l ≠ []) (hall : ∀ i ∈ l, i.1 68 = true) :
    (drawTicks l p).currentState = STATE.WALK ∧
    (drawTicks l p).currentFrame = 0 ∧
    (drawTicks l p).frameCounter = 1 := by
  induction l generalizing p with
  | nil => exact absurd rfl hne
  | cons i l ih =>
    by_cases hl : l = []
    · subst hl
      exact drawTick_of_down_fields i.1 i.2 p (hall i (List.mem_cons_self _ _))
    · exact ih _ hl (fun j hj => hall j (List.mem_cons_of_mem _ hj))

/-- C17: in the draw loop (`handleInput` then `update`), for every starting
player, key table with key 68 down and canvas width, after the tick
`currentState = WALK`, `currentFrame = 0` and `frameCounter = 1`; and after any
nonempty run of consecutive ticks that all have key 68 down (whatever the canvas
widths) `currentFrame` is still 0, so it is 0 after every tick of such a run and
never 1. -/
theorem held_key_tick_pins_walk_frame_zero (keyIsDown : Nat → Bool) (width : ℚ)
    (p : Player) (hk : keyIsDown 68 = true) :
    ((drawTick keyIsDown width p).currentState = STATE.WALK ∧
      (drawTick keyIsDown width p).currentFrame = 0 ∧
      (drawTick keyIsDown width p).frameCounter = 1) ∧
    ∀ inputs : List ((Nat → Bool) × ℚ), inputs ≠ [] →
      (∀ i ∈ inputs, i.1 68 = true) →
        (drawTicks inputs p).currentState = STATE.WALK ∧
        (drawTicks inputs p).currentFrame = 0 ∧
        (drawTicks inputs p).frameCounter = 1 ∧
        (drawTicks inputs p).currentFrame ≠ 1 := by
  refine ⟨drawTick_of_down_fields keyIsDown width p hk, ?_⟩
  intro inputs hne hall
  obtain ⟨h1, h2, h3⟩ := drawTicks_last_down_fields inputs p hne hall
  exact ⟨h1, h2, h3, by rw [h2]; decide⟩

/-- C17 at the walking player `walkingMidCycle` (frame 3, counter 2): one tick
with the D key held, and a run of 151 such ticks, both end on frame 0 with
counter 1. -/
theorem held_key_tick_pins_walk_frame_zero_witness :
    keyDHeld 68 = true ∧
    (drawTick keyDHeld 800 walkingMidCycle).currentFrame = 0 ∧
    (drawTick keyDHeld 800 walkingMidCycle).frameCounter = 1 ∧
    (drawTicks (heldRun 151) walkingMidCycle).currentFrame = 0 :=
  ⟨rfl,
    (held_key_tick_pins_walk_frame_zero keyDHeld 800 walkingMidCycle rfl).1.2.1,
    (held_key_tick_pins_walk_frame_zero keyDHeld 800 walkingMidCycle rfl).1.2.2,
    ((held_key_tick_pins_walk_frame_zero keyDHeld 800 walkingMidCycle rfl).2
      (heldRun 151) (by simp [heldRun])
      (by intro i hi; rw [List.eq_of_mem_replicate hi]; rfl)).2.1⟩

/-! ## The frame counter -/

theorem counterBelowDelay_new (x y : ℚ) : CounterBelowDelay (Player.new x y) := by
  intro d hd
  exact currentAnimData_frameDelay_pos _ d hd

theorem counterBelowDelay_setState (p : Player) (s : STATE) (h : CounterBelowDelay p) :
    CounterBelowDelay (p.setState s) := by
  by_cases hs : p.currentState = s
  · rw [setState_of_eq p s hs]; exact h
  · rw [setState_of_ne p s hs]
    intro d hd
    exact currentAnimData_frameDelay_pos s d hd

theorem counterBelowDelay_setVelocity (p : Player) (v : ℚ) (h : CounterBelowDelay p) :
    CounterBelowDelay (p.setVelocity v) := fun d hd => h d hd

/-- After `update()` in a state with a clip the counter is below the delay,
whatever it was before. -/
theorem counterBelowDelay_update (p : Player) (w : ℚ) : CounterBelowDelay (p.update w) := by
  intro d hd
  rw [update_currentState] at hd
  by_cases hlt : p.frameCounter + 1 < d.frameDelay
  · rw [(update_frames_of_lt w p d hd hlt).2]
    exact hlt
  · rw [(update_frames_of_ge w p d hd (Nat.not_lt.mp hlt)).2]
    exact currentAnimData_frameDelay_pos _ d hd

theorem counterBelowDelay_handleInput (k : Nat → Bool) (p : Player)
    (h : CounterBelowDelay p) : CounterBelowDelay (handleInput k p) := by
  cases hk : k 68
  · rw [handleInput_of_up k p hk]
    exact counterBelowDelay_setVelocity _ _ (counterBelowDelay_setState _ _ h)
  · rw [handleInput_of_down k p hk]
    exact counterBelowDelay_setVelocity _ _ (counterBelowDelay_setState _ _
      (counterBelowDelay_setVelocity _ _ (counterBelowDelay_setState _ _ h)))

theorem counterBelowDelay_of_reachable (p : Player) (h : Reachable p) :
    CounterBelowDelay p := by
  induction h with
  | new x y => exact counterBelowDelay_new x y
  | setState s _ ih => exact counterBelowDelay_setState _ s ih
  | setVelocity v _ ih => exact counterBelowDelay_setVelocity _ v ih
  | update w _ _ => exact counterBelowDelay_update _ w
  | handleInput k _ ih => exact counterBelowDelay_handleInput k _ ih

/-- C18: in every state reachable from `new Player(x, y)` by `setState`,
`setVelocity`, `update` and `handleInput` calls, if the current state has a clip
`d` then `0 ≤ frameCounter < d.frameDelay`; hence whenever the test
`frameCounter >= frameDelay` of `update()` succeeds on the incremented counter
`frameCounter + 1`, that counter equals `d.frameDelay`, and `update()` clears the
counter exactly in that case. -/
theorem reachable_counter_below_delay (p : Player) (h : Reachable p) :
    ∀ d : AnimData, currentAnimData p.currentState = some d →
      0 ≤ p.frameCounter ∧ p.frameCounter < d.frameDelay ∧
      (d.frameDelay ≤ p.frameCounter + 1 → p.frameCounter + 1 = d.frameDelay) ∧
      ∀ width : ℚ,
        ((p.update width).frameCounter = 0 ↔ p.frameCounter + 1 = d.frameDelay) := by
  intro d hd
  have hlt := counterBelowDelay_of_reachable p h d hd
  refine ⟨Nat.zero_le _, hlt, fun hge => by omega, ?_⟩
  intro width
  by_cases hc : p.frameCounter + 1 < d.frameDelay
  · rw [(update_frames_of_lt width p d hd hc).2]
    constructor <;> intro h' <;> omega
  · rw [(update_frames_of_ge width p d hd (Nat.not_lt.mp hc)).2]
    constructor
    · intro _; omega
    · intro _; rfl

/-- C18 at the reachable walking player `walkingMidCycle` (counter 2, delay 6). -/
theorem reachable_counter_below_delay_witness :
    Reachable walkingMidCycle ∧
    currentAnimData walkingMidCycle.currentState = some animationData_WALK ∧
    walkingMidCycle.frameCounter < animationData_WALK.frameDelay :=
  ⟨reachable_walkingMidCycle, rfl,
    (reachable_counter_below_delay walkingMidCycle reachable_walkingMidCycle
      animationData_WALK rfl).2.1⟩

theorem updateN_counter_of_none (w : ℚ) (p : Player)
    (h : currentAnimData p.currentState = none) (n : Nat) :
    (updateN w n p).frameCounter = p.frameCounter + n := by
  induction n with
  | zero => rfl
  | succ n ih =>
    have hn : currentAnimData (updateN w n p).currentState = none := by
      rw [updateN_currentState]; exact h
    rw [updateN_succ, (update_frames_of_none w _ hn).2, ih, Nat.add_assoc]

/-- C16: for every player in `RUN` or `ATTACK`, each `update()` increases
`frameCounter` by exactly 1, so after `n` ticks it is the old value plus `n`;
and a `setState` to `IDLE` or `WALK` after those ticks puts `frameCounter` and
`currentFrame` to 0, so that the next `update()` tests the counter value 1 and
leaves the frame at 0. -/
theorem clipless_counter_grows_until_setState (p : Player) (width : ℚ)
    (h : p.currentState = STATE.RUN ∨ p.currentState = STATE.ATTACK) :
    (p.update width).frameCounter = p.frameCounter + 1 ∧
    ∀ n : Nat,
      (updateN width n p).frameCounter = p.frameCounter + n ∧
      ∀ Y : STATE, Y = STATE.IDLE ∨ Y = STATE.WALK →
        ((updateN width n p).setState Y).frameCounter = 0 ∧
        ((updateN width n p).setState Y).currentFrame = 0 ∧
        (((updateN width n p).setState Y).update width).frameCounter = 1 ∧
        (((updateN width n p).setState Y).update width).currentFrame = 0 := by
  have hnone : currentAnimData p.currentState = none := by
    rcases h with h | h <;> rw [h] <;> rfl
  refine ⟨(update_frames_of_none width p hnone).2, ?_⟩
  intro n
  refine ⟨updateN_counter_of_none width p hnone n, ?_⟩
  intro Y hY
  have hne : (updateN width n p).currentState ≠ Y := by
    rw [updateN_currentState]
    rcases h with h | h <;> rcases hY with hY | hY <;> rw [h, hY] <;> decide
  rw [setState_of_ne _ Y hne]
  rcases hY with hY | hY <;> subst hY
  · have hu := update_frames_of_lt width
      { updateN width n p with
        currentState := STATE.IDLE, currentFrame := 0, frameCounter := 0 }
      animationData_IDLE rfl (by show 0 + 1 < 8; decide)
    exact ⟨rfl, rfl, hu.2, hu.1⟩
  · have hu := update_frames_of_lt width
      { updateN width n p with
        currentState := STATE.WALK, currentFrame := 0, frameCounter := 0 }
      animationData_WALK rfl (by show 0 + 1 < 6; decide)
    exact ⟨rfl, rfl, hu.2, hu.1⟩

/-- C16 at the running player `runningPlayer` (counter 40): one tick gives 41, ten
ticks give 50, and `setState(IDLE)` after them gives 0. -/
theorem clipless_counter_grows_until_setState_witness :
    (runningPlayer.currentState = STATE.RUN ∨
      runningPlayer.currentState = STATE.ATTACK) ∧
    (runningPlayer.update 800).frameCounter = 41 ∧
    (updateN 800 10 runningPlayer).frameCounter = 50 ∧
    ((updateN 800 10 runningPlayer).setState STATE.IDLE).frameCounter = 0 :=
  ⟨Or.inl rfl,
    (clipless_counter_grows_until_setState runningPlayer 800 (Or.inl rfl)).1,
    ((clipless_counter_grows_until_setState runningPlayer 800 (Or.inl rfl)).2 10).1,
    (((clipless_counter_grows_until_setState runningPlayer 800 (Or.inl rfl)).2 10).2
      STATE.IDLE (Or.inl rfl)).1⟩

/-! ## Closed form of the frame index -/

theorem walkingLastFrame_eq : updateN 800 42 walkScenario = walkingLastFrame := by
  have hfr := updateN_frames 800 walkScenario animationData_WALK rfl rfl (by decide)
    (by decide) 42
  have hx : walkScenario.x = 100 := rfl
  have hv : walkScenario.velocity = 3 := rfl
  have hs : walkScenario.scale = 1 := rfl
  apply Player.eq_of_fields
  · rw [updateN_x_free 800 walkScenario 42 (by rw [hv]; norm_num) (by rw [hx]; norm_num)
      (by rw [hx, hv, hs]; norm_num), hx, hv]
    show (100 : ℚ) + (42 : ℕ) * 3 = 226
    norm_num
  · rw [updateN_y]; rfl
  · rw [updateN_velocity]; rfl
  · rw [updateN_scale]; rfl
  · rw [updateN_currentState]; rfl
  · exact hfr.1
  · exact hfr.2
  · rw [updateN_facing]; rfl

theorem reachable_walkingLastFrame : Reachable walkingLastFrame := by
  rw [← walkingLastFrame_eq]
  exact reachable_updateN 800 42 walkScenario reachable_walkScenario

/-- C14: for every state `S` with a clip `d`, every player in `S` with
`frameCounter = 0` that is reachable from `new Player(x, y)` by `setState`,
`setVelocity`, `update` and `handleInput` calls, and every `n`, after `n`
consecutive `update()` calls
`currentFrame = (f0 + n div d.frameDelay) mod d.frameCount` and
`frameCounter = n mod d.frameDelay`, where `f0` is the starting frame; from the
last frame `d.frameCount - 1` the advance after `d.frameDelay` calls goes to 0. -/
theorem reachable_frames_follow_closed_form (S : STATE) (d : AnimData)
    (hS : currentAnimData S = some d) (width : ℚ) (p : Player) (hr : Reachable p)
    (hp : p.currentState = S) (h0 : p.frameCounter = 0) (n : Nat) :
    (updateN width n p).currentFrame =
      (p.currentFrame + n / d.frameDelay) % d.frameCount ∧
    (updateN width n p).frameCounter = n % d.frameDelay ∧
    (p.currentFrame = d.frameCount - 1 →
      (updateN width d.frameDelay p).currentFrame = 0) := by
  have h : currentAnimData p.currentState = some d := by rw [hp]; exact hS
  have hc := currentAnimData_frameCount_pos S d hS
  have hd := currentAnimData_frameDelay_pos S d hS
  have hlt : p.currentFrame < d.frameCount := frameInClip_of_reachable p hr d h
  have hfr := updateN_frames width p d h h0 hlt hd n
  refine ⟨hfr.1, hfr.2, ?_⟩
  intro hlast
  rw [(updateN_advance width p d h h0 hd).1, hlast, Nat.sub_add_cancel hc, Nat.mod_self]

/-- C14 at the reachable walking player `walkingLastFrame` (frame 7 of 8, delay
6): after 5 ticks the frame is still 7 with counter 5, after 6 ticks it has
wrapped to 0, and after 20 ticks it is frame 2 with counter 2. -/
theorem reachable_frames_follow_closed_form_witness :
    currentAnimData STATE.WALK = some animationData_WALK ∧
    Reachable walkingLastFrame ∧
    walkingLastFrame.currentState = STATE.WALK ∧
    walkingLastFrame.frameCounter = 0 ∧
    walkingLastFrame.currentFrame = animationData_WALK.frameCount - 1 ∧
    (updateN 800 5 walkingLastFrame).currentFrame = 7 ∧
    (updateN 800 5 walkingLastFrame).frameCounter = 5 ∧
    (updateN 800 6 walkingLastFrame).currentFrame = 0 ∧
    (updateN 800 20 walkingLastFrame).currentFrame = 2 ∧
    (updateN 800 20 walkingLastFrame).frameCounter = 2 :=
  ⟨rfl, reachable_walkingLastFrame, rfl, rfl, rfl,
    (reachable_frames_follow_closed_form STATE.WALK animationData_WALK rfl 800
      walkingLastFrame reachable_walkingLastFrame rfl rfl 5).1,
    (reachable_frames_follow_closed_form STATE.WALK animationData_WALK rfl 800
      walkingLastFrame reachable_walkingLastFrame rfl rfl 5).2.1,
    (reachable_frames_follow_closed_form STATE.WALK animationData_WALK rfl 800
      walkingLastFrame reachable_walkingLastFrame rfl rfl 6).2.2 rfl,
    (reachable_frames_follow_closed_form STATE.WALK animationData_WALK rfl 800
      walkingLastFrame reachable_walkingLastFrame rfl rfl 20).1,
    (reachable_frames_follow_closed_form STATE.WALK animationData_WALK rfl 800
      walkingLastFrame reachable_walkingLastFrame rfl rfl 20).2.1⟩

/-! ## The drawn frame and the canvas edge -/

theorem handleInput_facing (k : Nat → Bool) (p : Player) :
    (handleInput k p).facing = p.facing := by
  cases h : k 68
  · rw [handleInput_of_up k p h]; exact setState_facing p _
  · rw [handleInput_of_down k p h]
    exact (setState_facing _ _).trans (setState_facing p _)

theorem drawTick_facing (k : Nat → Bool) (w : ℚ) (p : Player) :
    (drawTick k w p).facing = p.facing := by
  unfold drawTick
  rw [update_facing, handleInput_facing]

theorem drawTicks_facing (l : List ((Nat → Bool) × ℚ)) (p : Player) :
    (drawTicks l p).facing = p.facing := by
  induction l generalizing p with
  | nil => rfl
  | cons i l ih => exact (ih _).trans (drawTick_facing i.1 i.2 p)

theorem drawTicks_scale (l : List ((Nat → Bool) × ℚ)) (p : Player) :
    (drawTicks l p).scale = p.scale := by
  induction l generalizing p with
  | nil => rfl
  | cons i l ih => exact (ih _).trans (drawTick_scale i.1 i.2 p)

theorem heldRun_succ (n : Nat) : heldRun (n + 1) = (keyDHeld, 800) :: heldRun n := rfl

theorem heldRun_succ_last (n : Nat) : heldRun (n + 1) = heldRun n ++ [(keyDHeld, 800)] := by
  induction n with
  | zero => rfl
  | succ n ih =>
    show (keyDHeld, 800) :: heldRun (n + 1) = ((keyDHeld, 800) :: heldRun n) ++ [(keyDHeld, 800)]
    rw [ih]
    rfl

/-- Away from the right bound, `n` held-key ticks on a canvas of width 800 move a
player of scale 1 by `3 * n`. -/
theorem drawTicks_heldRun_x_free (n : Nat) (p : Player) (hs : p.scale = 1)
    (hx : 0 ≤ p.x) (hb : p.x + 3 * (n : ℚ) ≤ 652) :
    (drawTicks (heldRun n) p).x = p.x + 3 * (n : ℚ) := by
  induction n generalizing p with
  | zero => rw [Nat.cast_zero, mul_zero, add_zero]; rfl
  | succ n ih =>
    have hn0 : (0 : ℚ) ≤ n := Nat.cast_nonneg n
    push_cast at hb
    have hstep : (drawTick keyDHeld 800 p).x = p.x + 3 := by
      rw [drawTick_of_down_x keyDHeld 800 p rfl, hs]
      exact constrain_zero_of_mem _ _ (by linarith) (by linarith)
    have hsc : (drawTick keyDHeld 800 p).scale = 1 := by rw [drawTick_scale, hs]
    rw [heldRun_succ]
    show (drawTicks (heldRun n) (drawTick keyDHeld 800 p)).x = _
    rw [ih _ hsc (by rw [hstep]; linarith) (by rw [hstep]; linarith), hstep]
    push_cast
    ring

/-- Horizontal extent of the frame drawn by `display()` in a state with a clip. -/
theorem display_horizontalExtents (p : Player) (d : AnimData) (sheet : SpriteSheet)
    (h : displaySwitch p.currentState = some (d, sheet)) :
    horizontalExtents 0 1 [] p.display.2 =
      [(p.x, p.x + (p.facing : ℚ) * p.scale * (d.frameWidth : ℚ))] := by
  rw [display_of_some p d sheet h]
  simp [horizontalExtents]

/-- C11 (the code departs from the claim): the player `walkedToRightEdge`, left by
151 `draw()` ticks with the D key held on a canvas of width 800 starting from
`new Player(200, 560)`, is reachable, walks (`WALK`, facing 1, scale 1) and
stands at the clamp bound `x = 652 = 800 - 148`; the canvas is wider than
`148 * scale`; and `display()` draws its frame over `[652, 808]`, that is
`[x, x + 156 * scale]`, which is not inside `[0, 800]`. -/
theorem display_walk_frame_exceeds_canvas :
    Reachable walkedToRightEdge ∧
    walkedToRightEdge = drawTick keyDHeld 800 (drawTicks (heldRun 150) (Player.new 200 560)) ∧
    walkedToRightEdge.currentState = STATE.WALK ∧
    walkedToRightEdge.facing = 1 ∧
    walkedToRightEdge.scale = 1 ∧
    (148 : ℚ) * walkedToRightEdge.scale ≤ 800 ∧
    walkedToRightEdge.x = 652 ∧
    horizontalExtents 0 1 [] walkedToRightEdge.display.2 = [(652, 808)] ∧
    walkedToRightEdge.x + (animationData_WALK.frameWidth : ℚ) * walkedToRightEdge.scale
      = 808 ∧
    ¬ ((808 : ℚ) ≤ 800) := by
  have hlast : walkedToRightEdge =
      drawTick keyDHeld 800 (drawTicks (heldRun 150) (Player.new 200 560)) := by
    unfold walkedToRightEdge
    rw [heldRun_succ_last 150, drawTicks_append]
    rfl
  have hfields := drawTicks_last_down_fields (heldRun 151) (Player.new 200 560)
    (by simp [heldRun]) (by intro i hi; rw [List.eq_of_mem_replicate hi]; rfl)
  have hst : walkedToRightEdge.currentState = STATE.WALK := hfields.1
  have hfa : walkedToRightEdge.facing = 1 := drawTicks_facing _ _
  have hsc : walkedToRightEdge.scale = 1 := drawTicks_scale _ _
  have hx150 : (drawTicks (heldRun 150) (Player.new 200 560)).x = 650 := by
    rw [drawTicks_heldRun_x_free 150 (Player.new 200 560) rfl
      (by show (0 : ℚ) ≤ 200; norm_num) (by show (200 : ℚ) + 3 * (150 : ℕ) ≤ 652; norm_num)]
    show (200 : ℚ) + 3 * (150 : ℕ) = 650
    norm_num
  have hx : walkedToRightEdge.x = 652 := by
    rw [hlast, drawTick_of_down_x keyDHeld 800 _ rfl, hx150, drawTicks_scale]
    show constrain (650 + 3) 0 (800 - 148 * 1) = 652
    norm_num [constrain]
  have hsw : displaySwitch walkedToRightEdge.currentState =
      some (animationData_WALK, SpriteSheet.walkSpriteSheet) := by rw [hst]; rfl
  have hfw : (animationData_WALK.frameWidth : ℚ) = 156 := by
    show ((156 : ℕ) : ℚ) = 156
    norm_num
  refine ⟨reachable_drawTicks _ _ (Reachable.new 200 560), hlast, hst, hfa, hsc, ?_, hx,
    ?_, ?_, by norm_num⟩
  · rw [hsc]; norm_num
  · rw [display_horizontalExtents _ _ _ hsw, hx, hfa, hsc, hfw]
    norm_num
  · rw [hx, hsc, hfw]; norm_num

end Sketch
